import Mathlib

/-!
Verification of the sapp interactive trace navigator and the incremental-test
environment runner.  The data model and the navigator operations are embedded
as executable Lean definitions; `Environment.checked_run` is translated from
`scripts/pyre_incremental_test/environment.py`, while the navigator itself is
modelled from the specification (its module is exercised only through
`sapp/sapp/tests/interactive_test.py`), with every behavioural choice pinned
against the literal outputs that test file asserts.
-/

namespace Sapp

/-- Modelled from the spec: status of an analysis run (`Run.status`);
only FINISHED runs are selectable. -/
inductive RunStatus where
  | finished : RunStatus
  | incomplete : RunStatus
deriving DecidableEq, Repr

/-- Modelled from the spec: kind of a trace frame
(POSTCONDITION toward a source, PRECONDITION toward a sink). -/
inductive TraceKind where
  | postcondition : TraceKind
  | precondition : TraceKind
deriving DecidableEq, Repr

instance : BEq RunStatus := ⟨fun a b => decide (a = b)⟩
instance : BEq TraceKind := ⟨fun a b => decide (a = b)⟩

/-- Modelled from the spec: kind of an interned SharedText row. -/
inductive SharedTextKind where
  | message : SharedTextKind
  | source : SharedTextKind
  | sink : SharedTextKind
  | feature : SharedTextKind
deriving DecidableEq, Repr

instance : BEq SharedTextKind := ⟨fun a b => decide (a = b)⟩

/-- Modelled from the spec: a source location (`sapp.models.SourceLocation`,
missing from src/).  The three stored fields; construction from an optional
end column is `SourceLocation.make` below.  The in-repo tests pin the
rendering: `SourceLocation(1, 2)` renders as `1|2|2`. -/
structure SourceLocation where
  line_no : Nat
  begin_column : Nat
  end_column : Nat
deriving DecidableEq, Repr

/-- Modelled from the spec: the `SourceLocation(line, begin, end=None)`
constructor; a missing end column defaults to the begin column, as pinned by
`testBranchPrefixLengthChanges` (`SourceLocation(1, 2)` renders `1|2|2`). -/
def SourceLocation.make (line b : Nat) (e : Option Nat) : SourceLocation :=
  ⟨line, b, e.getD b⟩

/-- Modelled from the spec: the location string `<line>|<start_col>|<end_col>`
joined with `|`. -/
def SourceLocation.render (l : SourceLocation) : String :=
  toString l.line_no ++ "|" ++ toString l.begin_column ++ "|" ++ toString l.end_column

/-- Modelled from the spec: the full rendered location
`<filename>:<location string>`. -/
def render_full_location (filename : String) (l : SourceLocation) : String :=
  filename ++ ":" ++ l.render

/-- Modelled from the spec: an analysis run. -/
structure Run where
  id : Nat
  status : RunStatus
deriving DecidableEq, Repr

/-- Modelled from the spec: a deduplicated finding. -/
structure Issue where
  id : Nat
  code : Nat
  callable : String
  filename : String
deriving DecidableEq, Repr

/-- Modelled from the spec: one occurrence of an Issue within one Run. -/
structure IssueInstance where
  id : Nat
  run_id : Nat
  issue_id : Nat
  filename : String
  location : SourceLocation
deriving DecidableEq, Repr

/-- Modelled from the spec: an interned string payload. -/
structure SharedText where
  id : Nat
  contents : String
  kind : SharedTextKind
deriving DecidableEq, Repr

/-- Modelled from the spec: one edge of the call-graph flow. -/
structure TraceFrame where
  id : Nat
  kind : TraceKind
  caller : String
  caller_port : String
  callee : String
  callee_port : String
  callee_location : SourceLocation
  filename : String
  run_id : Nat
deriving DecidableEq, Repr

/-- Modelled from the spec: "this frame can reach this leaf in N more hops". -/
structure TraceFrameLeafAssoc where
  trace_frame_id : Nat
  leaf_id : Nat
  trace_length : Nat
deriving DecidableEq, Repr

/-- Modelled from the spec: an issue instance's entry frames. -/
structure IssueInstanceTraceFrameAssoc where
  issue_instance_id : Nat
  trace_frame_id : Nat
deriving DecidableEq, Repr

/-- Modelled from the spec: an issue instance's directly known leaves. -/
structure IssueInstanceSharedTextAssoc where
  issue_instance_id : Nat
  shared_text_id : Nat
deriving DecidableEq, Repr

/-- Modelled from the spec: the backing store, read-only for the navigator. -/
structure DB where
  runs : List Run
  issues : List Issue
  issue_instances : List IssueInstance
  shared_texts : List SharedText
  trace_frames : List TraceFrame
  trace_frame_leaf_assocs : List TraceFrameLeafAssoc
  issue_instance_trace_frame_assocs : List IssueInstanceTraceFrameAssoc
  issue_instance_shared_text_assocs : List IssueInstanceSharedTextAssoc
deriving DecidableEq, Repr

/-- Modelled from the spec: one rendered position in the assembled path: a
frame plus its branch count, with flags for a missing-frame placeholder and
for the synthetic root row. -/
structure TraceTuple where
  trace_frame : TraceFrame
  branches : Nat
  missing : Bool
  placeholder : Bool
deriving DecidableEq, Repr

/-- Modelled from the spec: the session-local mutable navigator state of the
`Interactive` class (active run/issue selection, leaf sets, cached assembled
sequence and cursor index). -/
structure State where
  current_run_id : Option Nat
  current_issue_id : Option Nat
  sources : List String
  sinks : List String
  trace_tuples : List TraceTuple
  current_trace_frame_index : Nat
deriving DecidableEq, Repr

/-- The empty session state before `setup`. -/
def initial_state : State :=
  { current_run_id := none
    current_issue_id := none
    sources := []
    sinks := []
    trace_tuples := []
    current_trace_frame_index := 0 }

/-- Insert a frame into a list kept ascending by frame id. -/
def insert_frame_by_id (f : TraceFrame) : List TraceFrame → List TraceFrame
  | [] => [f]
  | g :: rest =>
    if f.id ≤ g.id then f :: g :: rest else g :: insert_frame_by_id f rest

/-- Sort frames ascending by frame id (the deterministic query order). -/
def sort_frames_by_id (l : List TraceFrame) : List TraceFrame :=
  l.foldr insert_frame_by_id []

/-- Modelled from the spec: `Interactive._get_leaves` — the contents of the
SharedText rows of the given kind directly associated with the instance. -/
def get_leaves (db : DB) (instance_id : Nat) (kind : SharedTextKind) : List String :=
  (db.shared_texts.filter (fun t =>
    t.kind == kind &&
      db.issue_instance_shared_text_assocs.any (fun a =>
        a.issue_instance_id == instance_id && a.shared_text_id == t.id))).map
    (fun t => t.contents)

/-- The leaf contents reachable from a frame (via its TraceFrameLeafAssoc
rows, resolved through SharedText). -/
def frame_leaf_contents (db : DB) (frame_id : Nat) : List String :=
  (db.trace_frame_leaf_assocs.filter (fun a => a.trace_frame_id == frame_id)).filterMap
    (fun a => (db.shared_texts.find? (fun t => t.id == a.leaf_id)).map (fun t => t.contents))

/-- Modelled from the spec: `Interactive._next_trace_frames` — every stored
frame continuing the call chain from `frame` (`caller = frame.callee`,
`caller_port = frame.callee_port`) that reaches a leaf in the session's
active set (sources for a POSTCONDITION current frame, sinks for a
PRECONDITION one, as pinned by `testNextTraceFrame`), ascending by frame id. -/
def next_trace_frames (db : DB) (sources sinks : List String) (frame : TraceFrame) :
    List TraceFrame :=
  let leaves := if frame.kind == TraceKind.postcondition then sources else sinks
  sort_frames_by_id
    (db.trace_frames.filter (fun g =>
      g.caller == frame.callee && g.caller_port == frame.callee_port &&
        (frame_leaf_contents db g.id).any (fun c => leaves.contains c)))

/-- Modelled from the spec: a frame is leaf-terminal when its callee/port is
exactly ("leaf","source") or ("leaf","sink"). -/
def is_leaf_frame (frame : TraceFrame) : Bool :=
  frame.callee == "leaf" && (frame.callee_port == "source" || frame.callee_port == "sink")

/-- Modelled from the spec: the missing-frame placeholder tuple emitted when
the walk finds no continuation; it keeps the stuck frame so the renderer can
name the expected callee and port, and has zero branch count. -/
def missing_tuple (frame : TraceFrame) : TraceTuple :=
  ⟨frame, 0, true, false⟩

/-- Modelled from the spec: the iteration of `Interactive._navigate_trace_frames`
after the seed — at each step take the lowest-id continuation, recording the
candidate count as the branch count; emit a missing-frame placeholder and stop
when no continuation exists and the frame is not leaf-terminal.  `fuel` bounds
the walk (the stored trace lengths strictly decrease in real data). -/
def navigate_steps (db : DB) (sources sinks : List String) :
    TraceFrame → Nat → List TraceTuple
  | _, 0 => []
  | frame, fuel + 1 =>
    if is_leaf_frame frame then []
    else
      match next_trace_frames db sources sinks frame with
      | [] => [missing_tuple frame]
      | g :: rest =>
        ⟨g, rest.length + 1, false, false⟩ :: navigate_steps db sources sinks g fuel

/-- Modelled from the spec: `Interactive._navigate_trace_frames` — start from
`frames[index]`, whose branch count is the number of seed candidates, then
walk with `navigate_steps`. -/
def navigate (db : DB) (sources sinks : List String) (frames : List TraceFrame)
    (index : Nat) : List TraceTuple :=
  match frames[index]? with
  | none => []
  | some f =>
    ⟨f, frames.length, false, false⟩ ::
      navigate_steps db sources sinks f (db.trace_frames.length + 1)

/-- Modelled from the spec: the instance's entry frames of one kind
(via IssueInstanceTraceFrameAssoc), ascending by frame id. -/
def initial_trace_frames (db : DB) (instance_id : Nat) (kind : TraceKind) :
    List TraceFrame :=
  sort_frames_by_id
    (db.trace_frames.filter (fun f =>
      f.kind == kind &&
        db.issue_instance_trace_frame_assocs.any (fun a =>
          a.issue_instance_id == instance_id && a.trace_frame_id == f.id)))

/-- The reversed POSTCONDITION navigation: the upstream (source-side) chain,
oriented so index 0 is nearest the source leaf. -/
def upstream_chain (db : DB) (sources sinks : List String) (instance_id : Nat) :
    List TraceTuple :=
  (navigate db sources sinks
    (initial_trace_frames db instance_id TraceKind.postcondition) 0).reverse

/-- The PRECONDITION navigation: the downstream (sink-side) chain, descending
from the root toward the sink leaf. -/
def downstream_chain (db : DB) (sources sinks : List String) (instance_id : Nat) :
    List TraceTuple :=
  navigate db sources sinks
    (initial_trace_frames db instance_id TraceKind.precondition) 0

/-- The synthetic root row: the first downstream frame shown through its
caller (the issue's own callable), with a unit branch count; pinned by the
`call1 root` rows of `testTrace` and `testTraceBranchNumber`. -/
def root_tuples (down : List TraceTuple) : List TraceTuple :=
  match down.head? with
  | none => []
  | some t => [⟨t.trace_frame, 1, false, true⟩]

/-- Modelled from the spec: `Interactive._generate_trace` — assemble upstream
chain, root row and downstream chain, and place the cursor at the boundary
index `len(upstream chain)`. -/
def generate_trace (db : DB) (instance_id : Nat) : List TraceTuple × Nat :=
  let sources := get_leaves db instance_id SharedTextKind.source
  let sinks := get_leaves db instance_id SharedTextKind.sink
  let up := upstream_chain db sources sinks instance_id
  let down := downstream_chain db sources sinks instance_id
  (up ++ root_tuples down ++ down, up.length)

/-- Modelled from the spec: `Interactive.setup` — select the latest FINISHED
run, or report "No runs found." on the error channel. -/
def latest_run_id (db : DB) : Option Nat :=
  db.runs.foldl
    (fun acc r =>
      if r.status == RunStatus.finished then
        match acc with
        | none => some r.id
        | some m => some (max m r.id)
      else acc)
    none

/-- Modelled from the spec: `Interactive.setup`; returns the new state and the
error-channel output. -/
def setup (db : DB) (s : State) : State × List String :=
  match latest_run_id db with
  | none => (s, ["No runs found."])
  | some r => ({ s with current_run_id := some r }, [])

/-- Modelled from the spec: `Interactive.set_run` — select a FINISHED run by
id, or print "Run N doesn't exist." to the error channel and leave the state
unchanged. -/
def set_run (db : DB) (s : State) (id : Nat) : State × List String :=
  match db.runs.find? (fun r => r.id == id && r.status == RunStatus.finished) with
  | some _ => ({ s with current_run_id := some id }, [])
  | none => (s, ["Run " ++ toString id ++ " doesn't exist."])

/-- Modelled from the spec: `Interactive.set_issue` — select an issue instance
by id and eagerly assemble its trace (the cursor lands at the boundary), or
print "Issue N doesn't exist." to the error channel and leave the state
unchanged. -/
def set_issue (db : DB) (s : State) (id : Nat) : State × List String :=
  match db.issue_instances.find? (fun i => i.id == id) with
  | none => (s, ["Issue " ++ toString id ++ " doesn't exist."])
  | some inst =>
    let sources := get_leaves db inst.id SharedTextKind.source
    let sinks := get_leaves db inst.id SharedTextKind.sink
    let tr := generate_trace db inst.id
    ({ s with
        current_issue_id := some id
        sources := sources
        sinks := sinks
        trace_tuples := tr.1
        current_trace_frame_index := tr.2 }, [])

/-- Modelled from the spec: `Interactive.next_cursor_location` —
`current_index = min(current_index + 1, len(sequence) - 1)`. -/
def next_cursor_location (s : State) : State :=
  { s with current_trace_frame_index := min (s.current_trace_frame_index + 1) (s.trace_tuples.length - 1) }

/-- Modelled from the spec: `Interactive.prev_cursor_location` —
`current_index = max(current_index - 1, 0)` (Nat subtraction). -/
def prev_cursor_location (s : State) : State :=
  { s with current_trace_frame_index := s.current_trace_frame_index - 1 }

/-- Left-justify a string in a column of the given width. -/
def ljust (s : String) (w : Nat) : String :=
  s ++ String.mk (List.replicate (w - s.length) ' ')

/-- The branches column: `"+ N"` when the branch count exceeds 1, else blank. -/
def branches_string (t : TraceTuple) : String :=
  if t.branches > 1 then "+ " ++ toString t.branches else ""

/-- The callable column: the tuple's callee, or its caller for the synthetic
root row. -/
def tuple_callable (t : TraceTuple) : String :=
  if t.placeholder then t.trace_frame.caller else t.trace_frame.callee

/-- The port column: the tuple's callee port, or its caller port for the
synthetic root row. -/
def tuple_port (t : TraceTuple) : String :=
  if t.placeholder then t.trace_frame.caller_port else t.trace_frame.callee_port

/-- The location column: `<filename>:<line>|<start>|<end>`. -/
def tuple_location (t : TraceTuple) : String :=
  render_full_location t.trace_frame.filename t.trace_frame.callee_location

/-- A column width: the header width widened to fit every entry. -/
def column_width (base : Nat) (entries : List String) : Nat :=
  entries.foldl (fun acc e => max acc e.length) base

/-- One rendered table row: the cursor row is prefixed `" --> "`, others with
equal-width blanks; a missing-frame placeholder renders as the literal
`"Missing trace frame: <callee>:<port>"` line instead of a table row. -/
def output_trace_row (cursor bw cw pw i : Nat) (t : TraceTuple) : String :=
  if t.missing then
    "Missing trace frame: " ++ t.trace_frame.callee ++ ":" ++ t.trace_frame.callee_port
  else
    (if i == cursor then " --> " else "     ") ++
      ljust (branches_string t) bw ++ " " ++
      ljust (tuple_callable t) cw ++ " " ++
      ljust (tuple_port t) pw ++ " " ++
      tuple_location t

/-- Render the rows from position `i` on. -/
def output_trace_rows (cursor bw cw pw : Nat) : Nat → List TraceTuple → List String
  | _, [] => []
  | i, t :: rest =>
    output_trace_row cursor bw cw pw i t :: output_trace_rows cursor bw cw pw (i + 1) rest

/-- Modelled from the spec: `Interactive._output_trace_tuples` — the header
line followed by one aligned row per tuple; literal layout pinned by
`testOutputTraceTuples`. -/
def output_trace_tuples (tuples : List TraceTuple) (cursor : Nat) : List String :=
  let bw := column_width 10 (tuples.map branches_string)
  let cw := column_width 10 (tuples.map tuple_callable)
  let pw := column_width 6 (tuples.map tuple_port)
  ("     " ++ ljust "[branches]" bw ++ " " ++ ljust "[callable]" cw ++ " " ++
      ljust "[port]" pw ++ " " ++ "[location]") ::
    output_trace_rows cursor bw cw pw 0 tuples

/-- The rendered table for the current session state. -/
def trace_output (s : State) : List String :=
  output_trace_tuples s.trace_tuples s.current_trace_frame_index

/-- Modelled from the spec: `Interactive.trace` — requires a selected issue
("Use 'set_issue(ID)' to select an issue first." on the error channel
otherwise); returns (stdout lines, stderr lines) and never raises. -/
def trace (s : State) : List String × List String :=
  match s.current_issue_id with
  | none => ([], ["Use 'set_issue(ID)' to select an issue first."])
  | some _ => (trace_output s, [])

/-- Whether the cursor sits on the upstream (source) side of the root: the
current tuple's frame is a POSTCONDITION. -/
def is_before_root (s : State) : Bool :=
  match s.trace_tuples[s.current_trace_frame_index]? with
  | some t => t.trace_frame.kind == TraceKind.postcondition
  | none => false

/-- Modelled from the spec: `Interactive._get_trace_frame_branches` — the
sibling candidates for the predecessor of the current tuple (the tuple one
step toward the root); when that predecessor is the root, the instance's
entry frames on the current side. -/
def get_trace_frame_branches (db : DB) (s : State) : List TraceFrame :=
  let before := is_before_root s
  let parent_index :=
    if before then s.current_trace_frame_index + 1 else s.current_trace_frame_index - 1
  match s.trace_tuples[parent_index]? with
  | none => []
  | some parent =>
    if parent.placeholder then
      initial_trace_frames db (s.current_issue_id.getD 0)
        (if before then TraceKind.postcondition else TraceKind.precondition)
    else
      next_trace_frames db s.sources s.sinks parent.trace_frame

/-- Modelled from the spec: `Interactive.branch` — validate the chosen branch
position, re-run the navigator from the chosen sibling, splice the
regenerated portion of that side's chain into the sequence, and move the
cursor onto the newly chosen frame; out-of-range positions print an
"out of bounds" error and leave the state unchanged. -/
def branch (db : DB) (s : State) (choice : Nat) : State × List String :=
  let branches := get_trace_frame_branches db s
  if choice < branches.length then
    let nav := navigate db s.sources s.sinks branches choice
    if is_before_root s then
      ({ s with
          trace_tuples :=
            nav.reverse ++ s.trace_tuples.drop (s.current_trace_frame_index + 1)
          current_trace_frame_index := nav.length - 1 }, [])
    else
      ({ s with
          trace_tuples := s.trace_tuples.take s.current_trace_frame_index ++ nav
          current_trace_frame_index := s.current_trace_frame_index }, [])
  else
    (s, ["Branch number out of bounds."])

/-- Modelled from the spec: `Interactive._current_branch_index` inner scan —
the position of the first frame with the given id, counting from `i`. -/
def current_branch_index_from (cur_id : Nat) : List TraceFrame → Nat → Int
  | [], _ => -1
  | f :: rest, i =>
    if f.id = cur_id then (i : Int) else current_branch_index_from cur_id rest (i + 1)

/-- Modelled from the spec: `Interactive._current_branch_index` — the index of
the first frame in `branch_frames` whose id matches the frame at the cursor,
or -1 when none matches (pinned by `testCurrentBranchIndex`). -/
def current_branch_index (s : State) (branch_frames : List TraceFrame) : Int :=
  match s.trace_tuples[s.current_trace_frame_index]? with
  | some t => current_branch_index_from t.trace_frame.id branch_frames 0
  | none => -1

/-- SQL LIKE matching over `%` wildcards, on character lists. -/
def like_chars : List Char → List Char → Bool
  | [], [] => true
  | [], _ :: _ => false
  | '%' :: ps, [] => like_chars ps []
  | '%' :: ps, c :: rest => like_chars ps (c :: rest) || like_chars ('%' :: ps) rest
  | p :: ps, c :: rest => p == c && like_chars ps rest
  | _ :: _, [] => false
termination_by ps s => (ps.length, s.length)

/-- SQL LIKE matching of a pattern against a string. -/
def like_match (pattern s : String) : Bool :=
  like_chars pattern.toList s.toList

/-- A dynamically typed filter argument of the `issues` command: absent, a
value that is not a list, or a list of values. -/
inductive FilterArg (α : Type) where
  | absent : FilterArg α
  | nonlist : FilterArg α
  | given : List α → FilterArg α
deriving DecidableEq, Repr

/-- The run an issue listing is scoped to: the selected run, else the latest
FINISHED run. -/
def scope_run_id (db : DB) (s : State) : Option Nat :=
  match s.current_run_id with
  | some r => some r
  | none => latest_run_id db

/-- Whether an instance's issue passes the given list filters. -/
def issue_matches (db : DB) (codes : FilterArg Nat)
    (callables filenames : FilterArg String) (inst : IssueInstance) : Bool :=
  match db.issues.find? (fun iss => iss.id == inst.issue_id) with
  | none => false
  | some iss =>
    (match codes with
      | FilterArg.given cs => cs.contains iss.code
      | _ => true) &&
    (match callables with
      | FilterArg.given ps => ps.any (fun p => like_match p iss.callable)
      | _ => true) &&
    (match filenames with
      | FilterArg.given ps => ps.any (fun p => like_match p iss.filename)
      | _ => true)

/-- Modelled from the spec: `Interactive.issues` — list the issue instances of
the scoped run that pass the filters (stdout abridged to the leading
`"Issue N"` line of each entry); a non-list value for any filter field prints
`"'<field>' should be a list."` to the error channel and the command returns
without listing anything, as pinned by `testListIssuesFilterCodes` (the issues
printed before and after the invalid call are the same). -/
def issues (db : DB) (s : State) (codes : FilterArg Nat)
    (callables filenames : FilterArg String) : List String × List String :=
  match codes with
  | FilterArg.nonlist => ([], ["'codes' should be a list."])
  | _ =>
    match callables with
    | FilterArg.nonlist => ([], ["'callables' should be a list."])
    | _ =>
      match filenames with
      | FilterArg.nonlist => ([], ["'filenames' should be a list."])
      | _ =>
        ((db.issue_instances.filter (fun inst =>
            scope_run_id db s == some inst.run_id &&
              issue_matches db codes callables filenames inst)).map
          (fun inst => "Issue " ++ toString inst.id), [])

/-! Concrete stores mirroring the fixtures of `interactive_test.py`. -/

/-- The six-frame branched store of `_set_up_branched_trace`. -/
def dbBranched : DB :=
  { runs := [⟨1, RunStatus.finished⟩]
    issues := [⟨1, 1000, "module.function1", ""⟩]
    issue_instances := [⟨1, 1, 1, "module.py", SourceLocation.make 1 2 (some 3)⟩]
    shared_texts :=
      [⟨1, "source1", SharedTextKind.source⟩, ⟨2, "sink1", SharedTextKind.sink⟩]
    trace_frames :=
      [⟨1, TraceKind.postcondition, "call1", "root", "leaf", "source",
          SourceLocation.make 0 0 (some 0), "file.py", 1⟩,
        ⟨2, TraceKind.postcondition, "call1", "root", "leaf", "source",
          SourceLocation.make 1 1 (some 1), "file.py", 1⟩,
        ⟨3, TraceKind.precondition, "call1", "root", "call2", "param2",
          SourceLocation.make 2 2 (some 2), "file.py", 1⟩,
        ⟨4, TraceKind.precondition, "call1", "root", "call2", "param2",
          SourceLocation.make 3 3 (some 3), "file.py", 1⟩,
        ⟨5, TraceKind.precondition, "call2", "param2", "leaf", "sink",
          SourceLocation.make 4 4 (some 4), "file.py", 1⟩,
        ⟨6, TraceKind.precondition, "call2", "param2", "leaf", "sink",
          SourceLocation.make 5 5 (some 5), "file.py", 1⟩]
    trace_frame_leaf_assocs :=
      [⟨1, 1, 0⟩, ⟨2, 1, 0⟩, ⟨3, 2, 1⟩, ⟨4, 2, 1⟩, ⟨5, 2, 0⟩, ⟨6, 2, 0⟩]
    issue_instance_trace_frame_assocs := [⟨1, 1⟩, ⟨1, 2⟩, ⟨1, 3⟩, ⟨1, 4⟩]
    issue_instance_shared_text_assocs := [⟨1, 1⟩, ⟨1, 2⟩] }

/-- The store of `testBranchPrefixLengthChanges`: switching the source branch
lengthens the upstream chain. -/
def dbPrefixLen : DB :=
  { runs := [⟨1, RunStatus.finished⟩]
    issues := [⟨1, 1000, "module.function1", ""⟩]
    issue_instances := [⟨1, 1, 1, "module.py", SourceLocation.make 1 2 (some 3)⟩]
    shared_texts :=
      [⟨1, "source1", SharedTextKind.source⟩, ⟨2, "sink1", SharedTextKind.sink⟩]
    trace_frames :=
      [⟨1, TraceKind.postcondition, "call1", "root", "leaf", "source",
          SourceLocation.make 1 1 none, "file.py", 1⟩,
        ⟨2, TraceKind.postcondition, "call1", "root", "prev_call", "result",
          SourceLocation.make 1 1 none, "file.py", 1⟩,
        ⟨3, TraceKind.postcondition, "prev_call", "result", "leaf", "source",
          SourceLocation.make 1 1 none, "file.py", 1⟩,
        ⟨4, TraceKind.precondition, "call1", "root", "leaf", "sink",
          SourceLocation.make 1 2 none, "file.py", 1⟩]
    trace_frame_leaf_assocs := [⟨1, 1, 0⟩, ⟨2, 1, 1⟩, ⟨3, 1, 0⟩, ⟨4, 2, 0⟩]
    issue_instance_trace_frame_assocs := [⟨1, 1⟩, ⟨1, 2⟩, ⟨1, 4⟩]
    issue_instance_shared_text_assocs := [⟨1, 1⟩, ⟨1, 2⟩] }

/-- The store of `testTraceMissingFrames`: the PRECONDITION chain's next
expected frame (caller "call2", port "param0") has no stored frame. -/
def dbMissing : DB :=
  { runs := [⟨1, RunStatus.finished⟩]
    issues := [⟨1, 1000, "call1", ""⟩]
    issue_instances := [⟨1, 1, 1, "file.py", SourceLocation.make 1 1 (some 1)⟩]
    shared_texts := []
    trace_frames :=
      [⟨1, TraceKind.postcondition, "call1", "root", "leaf", "source",
          SourceLocation.make 1 1 (some 1), "file.py", 1⟩,
        ⟨2, TraceKind.precondition, "call1", "root", "call2", "param0",
          SourceLocation.make 1 1 (some 1), "file.py", 1⟩]
    trace_frame_leaf_assocs := [⟨1, 1, 0⟩, ⟨2, 1, 0⟩]
    issue_instance_trace_frame_assocs := [⟨1, 1⟩, ⟨1, 2⟩]
    issue_instance_shared_text_assocs := [] }

/-- The store of `testSetRunNonExistent`: run 1 FINISHED, run 2 INCOMPLETE. -/
def dbRuns : DB :=
  { runs := [⟨1, RunStatus.finished⟩, ⟨2, RunStatus.incomplete⟩]
    issues := []
    issue_instances := []
    shared_texts := []
    trace_frames := []
    trace_frame_leaf_assocs := []
    issue_instance_trace_frame_assocs := []
    issue_instance_shared_text_assocs := [] }

/-- The store of `_list_issues_filter_setup`: three issues with codes
1000/1001/1002 in one FINISHED run. -/
def dbFilter : DB :=
  { runs := [⟨1, RunStatus.finished⟩]
    issues :=
      [⟨1, 1000, "module.sub.function1", "module/sub.py"⟩,
        ⟨2, 1001, "module.sub.function2", "module/sub.py"⟩,
        ⟨3, 1002, "module.function3", "module/__init__.py"⟩]
    issue_instances :=
      [⟨1, 1, 1, "module.py", SourceLocation.make 1 2 (some 3)⟩,
        ⟨2, 1, 2, "module.py", SourceLocation.make 1 2 (some 3)⟩,
        ⟨3, 1, 3, "module.py", SourceLocation.make 1 2 (some 3)⟩]
    shared_texts := []
    trace_frames := []
    trace_frame_leaf_assocs := []
    issue_instance_trace_frame_assocs := []
    issue_instance_shared_text_assocs := [] }

/-- State after `setup(); set_issue(1)` on the branched store. -/
def sBranched : State := (set_issue dbBranched (setup dbBranched initial_state).1 1).1

/-- State after `setup(); set_issue(1)` on the prefix-change store. -/
def sPrefixLen : State := (set_issue dbPrefixLen (setup dbPrefixLen initial_state).1 1).1

/-- State after `setup(); set_issue(1)` on the missing-frame store. -/
def sMissing : State := (set_issue dbMissing (setup dbMissing initial_state).1 1).1

/-- The branched-store state with the cursor advanced onto the sink leaf
(index 3), as in the last step of `testBranch`. -/
def sBranchedSink : State := next_cursor_location (next_cursor_location sBranched)

/-- State after `setup()` on the filter store. -/
def sFilter : State := (setup dbFilter initial_state).1

/-- A frame fixture carrying only an id, as in `testCurrentBranchIndex`. -/
def dummy_frame (n : Nat) : TraceFrame :=
  ⟨n, TraceKind.postcondition, "", "", "", "", ⟨0, 0, 0⟩, "", 0⟩

/-- The three candidate frames of `testCurrentBranchIndex`. -/
def framesIndexTest : List TraceFrame :=
  [dummy_frame 1, dummy_frame 2, dummy_frame 3]

/-- The session state of `testCurrentBranchIndex`: one trace tuple whose
frame id is 2, cursor at 0. -/
def sIndexTest : State :=
  { initial_state with trace_tuples := [⟨dummy_frame 2, 1, false, false⟩] }

end Sapp

namespace PyreIncrementalTest

/-- The captured output of one command: translated from
`scripts/pyre_incremental_test/environment.py`, `CommandOutput`. -/
structure CommandOutput where
  return_code : Int
  stdout : String
  stderr : String
deriving DecidableEq, Repr

/-- The message of the `EnvironmentException` raised by `checked_run`:
translated from `Environment.checked_run`. -/
def checked_run_message (working_directory command : String) (output : CommandOutput) :
    String :=
  "Running command \"" ++ command ++ "\" " ++
    "under " ++ working_directory ++ " " ++
    "returns " ++ toString output.return_code ++ ".\n" ++
    "Stdout = " ++ output.stdout ++ "\n" ++
    "Stderr = " ++ output.stderr

/-- Translated from `Environment.checked_run`: run the command, raise an
`EnvironmentException` (the `Except.error` case) when the return code is not
among the expected ones, and return the output unchanged otherwise.  The
abstract `Environment.run` is a function parameter; the `Container[int]`
argument is a list. -/
def checked_run (run : String → String → CommandOutput)
    (working_directory command : String) (expected_return_codes : List Int) :
    Except String CommandOutput :=
  let output := run working_directory command
  if output.return_code ∈ expected_return_codes then
    Except.ok output
  else
    Except.error (checked_run_message working_directory command output)

/-- `checked_run` at its default `expected_return_codes = (0,)`. -/
def checked_run_default (run : String → String → CommandOutput)
    (working_directory command : String) : Except String CommandOutput :=
  checked_run run working_directory command [0]

/-- C9: `Environment.checked_run` raises `EnvironmentException` exactly when
the return code produced by `run(working_directory, command)` is not in
`expected_return_codes` (which defaults to `(0,)`), and otherwise returns
that `CommandOutput` unchanged. -/
theorem checked_run_spec (run : String → String → CommandOutput)
    (working_directory command : String) (expected_return_codes : List Int) :
    (checked_run run working_directory command expected_return_codes =
        Except.ok (run working_directory command) ↔
      (run working_directory command).return_code ∈ expected_return_codes) ∧
    ((∃ msg, checked_run run working_directory command expected_return_codes =
        Except.error msg) ↔
      (run working_directory command).return_code ∉ expected_return_codes) ∧
    checked_run_default run working_directory command =
      checked_run run working_directory command [0] := by
  refine ⟨?_, ?_, rfl⟩ <;>
    by_cases h : (run working_directory command).return_code ∈ expected_return_codes <;>
      simp [checked_run, h]

end PyreIncrementalTest

namespace Sapp

instance : LawfulBEq RunStatus where
  eq_of_beq h := of_decide_eq_true h
  rfl := by simp [BEq.beq]

instance : LawfulBEq TraceKind where
  eq_of_beq h := of_decide_eq_true h
  rfl := by simp [BEq.beq]

instance : LawfulBEq SharedTextKind where
  eq_of_beq h := of_decide_eq_true h
  rfl := by simp [BEq.beq]

/-- C6 (corrected): the claimed two-part `<line>|<col>` form does not occur —
a location with a single recorded column renders with the column doubled,
`file.py:1|2|2`, not `file.py:1|2`. -/
theorem location_two_part_counterexample :
    render_full_location "file.py" (SourceLocation.make 1 2 none) = "file.py:1|2|2" ∧
    render_full_location "file.py" (SourceLocation.make 1 2 none) ≠ "file.py:1|2" := by
  constructor
  · rfl
  · decide

/-- C6 (amended): every rendered location string has the three-part form
`<line>|<start_col>|<end_col>`; when only one column value is recorded the
end column equals the start column (so the string is `<line>|<col>|<col>`,
never a two-part `<line>|<col>`), and the full rendered location is that
string prefixed by `<filename>:`. -/
theorem render_location_three_part (filename : String) (line b : Nat) (e : Option Nat) :
    render_full_location filename (SourceLocation.make line b e) =
      filename ++ ":" ++
        (toString line ++ "|" ++ toString b ++ "|" ++ toString (e.getD b)) ∧
    (SourceLocation.make line b none).end_column = b :=
  ⟨rfl, rfl⟩

/-- C4: on a nonempty assembled sequence, `next_cursor_location` sets the
cursor to `min(current_index + 1, len(sequence) - 1)` and
`prev_cursor_location` sets it to `max(current_index - 1, 0)`; each is a
no-op (not an error) at its boundary index, and from any interior index an
advance followed by a retreat returns the cursor to the original index. -/
theorem cursor_step_spec (s : State) (h : s.trace_tuples ≠ []) :
    ((next_cursor_location s).current_trace_frame_index : Int) =
      min ((s.current_trace_frame_index : Int) + 1) ((s.trace_tuples.length : Int) - 1) ∧
    ((prev_cursor_location s).current_trace_frame_index : Int) =
      max ((s.current_trace_frame_index : Int) - 1) 0 ∧
    (s.current_trace_frame_index = s.trace_tuples.length - 1 → next_cursor_location s = s) ∧
    (s.current_trace_frame_index = 0 → prev_cursor_location s = s) ∧
    (0 < s.current_trace_frame_index →
      s.current_trace_frame_index < s.trace_tuples.length - 1 →
      prev_cursor_location (next_cursor_location s) = s) := by
  have hl : 1 ≤ s.trace_tuples.length := List.length_pos.mpr h
  refine ⟨?_, ?_, ?_, ?_, ?_⟩
  · show ((min (s.current_trace_frame_index + 1) (s.trace_tuples.length - 1) : Nat) : Int) = _
    omega
  · show ((s.current_trace_frame_index - 1 : Nat) : Int) = _
    omega
  · intro he
    unfold next_cursor_location
    rw [show min (s.current_trace_frame_index + 1) (s.trace_tuples.length - 1) =
        s.current_trace_frame_index from by omega]
  · intro he
    unfold prev_cursor_location
    rw [show s.current_trace_frame_index - 1 = s.current_trace_frame_index from by omega]
  · intro h1 h2
    unfold next_cursor_location prev_cursor_location
    rw [show min (s.current_trace_frame_index + 1) (s.trace_tuples.length - 1) - 1 =
        s.current_trace_frame_index from by omega]

/-- Witness for C4 at the branched four-tuple sequence with the cursor at the
interior root position. -/
theorem cursor_step_spec_witness :
    sBranched.trace_tuples ≠ [] ∧
    (((next_cursor_location sBranched).current_trace_frame_index : Int) =
      min ((sBranched.current_trace_frame_index : Int) + 1)
        ((sBranched.trace_tuples.length : Int) - 1) ∧
    ((prev_cursor_location sBranched).current_trace_frame_index : Int) =
      max ((sBranched.current_trace_frame_index : Int) - 1) 0 ∧
    (sBranched.current_trace_frame_index = sBranched.trace_tuples.length - 1 →
      next_cursor_location sBranched = sBranched) ∧
    (sBranched.current_trace_frame_index = 0 →
      prev_cursor_location sBranched = sBranched) ∧
    (0 < sBranched.current_trace_frame_index →
      sBranched.current_trace_frame_index < sBranched.trace_tuples.length - 1 →
      prev_cursor_location (next_cursor_location sBranched) = sBranched)) :=
  ⟨by decide, cursor_step_spec sBranched (by decide)⟩

/-- C7: `set_run` and `set_issue` with an absent id — or, for runs, an id
whose run is not FINISHED — print a "doesn't exist" message to the error
channel, raise no exception, and leave the state unchanged. -/
theorem select_nonexistent_spec :
    (∀ (db : DB) (s : State) (id : Nat),
        (∀ r ∈ db.runs, ¬(r.id = id ∧ r.status = RunStatus.finished)) →
        set_run db s id = (s, ["Run " ++ toString id ++ " doesn't exist."])) ∧
    (∀ (db : DB) (s : State) (id : Nat),
        (∀ i ∈ db.issue_instances, i.id ≠ id) →
        set_issue db s id = (s, ["Issue " ++ toString id ++ " doesn't exist."])) := by
  constructor
  · intro db s id h
    have hf : db.runs.find? (fun r => r.id == id && r.status == RunStatus.finished) =
        none := by
      rw [List.find?_eq_none]
      intro r hr
      simpa using h r hr
    simp [set_run, hf]
  · intro db s id h
    have hf : db.issue_instances.find? (fun i => i.id == id) = none := by
      rw [List.find?_eq_none]
      intro i hi
      simpa using h i hi
    simp [set_issue, hf]

/-- Witness for C7: run 3 is absent from the two-run store (and run 2 is
INCOMPLETE there), issue 1 is absent; both commands no-op with the message. -/
theorem select_nonexistent_spec_witness :
    (∀ r ∈ dbRuns.runs, ¬(r.id = 3 ∧ r.status = RunStatus.finished)) ∧
    set_run dbRuns initial_state 3 = (initial_state, ["Run 3 doesn't exist."]) ∧
    (∀ i ∈ dbRuns.issue_instances, i.id ≠ 1) ∧
    set_issue dbRuns initial_state 1 = (initial_state, ["Issue 1 doesn't exist."]) :=
  ⟨by decide, select_nonexistent_spec.1 dbRuns initial_state 3 (by decide),
    by decide, select_nonexistent_spec.2 dbRuns initial_state 1 (by decide)⟩

/-- C8 (corrected): on the three-issue store, a non-list `codes` value prints
the validation error and lists nothing, while the same command with no filter
lists all three issues — the invalid filter is not treated as "no filter". -/
theorem issues_nonlist_counterexample :
    issues dbFilter sFilter FilterArg.nonlist FilterArg.absent FilterArg.absent =
      ([], ["'codes' should be a list."]) ∧
    issues dbFilter sFilter FilterArg.absent FilterArg.absent FilterArg.absent =
      (["Issue 1", "Issue 2", "Issue 3"], []) ∧
    issues dbFilter sFilter FilterArg.nonlist FilterArg.absent FilterArg.absent ≠
      issues dbFilter sFilter FilterArg.absent FilterArg.absent FilterArg.absent := by
  refine ⟨rfl, by decide, by decide⟩

/-- C8 (amended): a non-list value for any filter field of the issue-listing
command prints `"'<field>' should be a list."` to the error channel, does not
crash, and makes the command return without listing any issues. -/
theorem issues_nonlist_aborts :
    (∀ (db : DB) (s : State) (ca fi : FilterArg String),
        issues db s FilterArg.nonlist ca fi = ([], ["'codes' should be a list."])) ∧
    (∀ (db : DB) (s : State) (co : FilterArg Nat) (fi : FilterArg String),
        co ≠ FilterArg.nonlist →
        issues db s co FilterArg.nonlist fi = ([], ["'callables' should be a list."])) ∧
    (∀ (db : DB) (s : State) (co : FilterArg Nat) (ca : FilterArg String),
        co ≠ FilterArg.nonlist → ca ≠ FilterArg.nonlist →
        issues db s co ca FilterArg.nonlist =
          ([], ["'filenames' should be a list."])) := by
  refine ⟨fun db s ca fi => rfl, ?_, ?_⟩
  · intro db s co fi hco
    cases co with
    | absent => rfl
    | nonlist => exact absurd rfl hco
    | given l => rfl
  · intro db s co ca hco hca
    cases co with
    | nonlist => exact absurd rfl hco
    | absent =>
      cases ca with
      | nonlist => exact absurd rfl hca
      | absent => rfl
      | given l => rfl
    | given l =>
      cases ca with
      | nonlist => exact absurd rfl hca
      | absent => rfl
      | given l2 => rfl

/-- Witness for C8's amended claim at the three-issue store. -/
theorem issues_nonlist_aborts_witness :
    (FilterArg.absent : FilterArg Nat) ≠ FilterArg.nonlist ∧
    issues dbFilter sFilter FilterArg.absent FilterArg.nonlist FilterArg.absent =
      ([], ["'callables' should be a list."]) :=
  ⟨by decide,
    issues_nonlist_aborts.2.1 dbFilter sFilter FilterArg.absent FilterArg.absent
      (by decide)⟩

/-- Scanning from counter `k`, a list with no matching id yields -1. -/
theorem current_branch_index_from_none (c : Nat) (l : List TraceFrame) (k : Nat)
    (h : ∀ f ∈ l, f.id ≠ c) : current_branch_index_from c l k = -1 := by
  induction l generalizing k with
  | nil => rfl
  | cons f rest ih =>
    rw [current_branch_index_from, if_neg (h f (by simp))]
    exact ih (k + 1) (fun f' hf' => h f' (by simp [hf']))

/-- Scanning from counter `k`, the first matching position `i` yields `k+i`. -/
theorem current_branch_index_from_first (c : Nat) (l : List TraceFrame) (k i : Nat)
    (hi : i < l.length) (hcur : (l.get ⟨i, hi⟩).id = c)
    (hmin : ∀ j (hj : j < l.length), j < i → (l.get ⟨j, hj⟩).id ≠ c) :
    current_branch_index_from c l k = ((k + i : Nat) : Int) := by
  induction l generalizing k i with
  | nil => exact absurd hi (by simp)
  | cons f rest ih =>
    cases i with
    | zero =>
      have hf : f.id = c := hcur
      rw [current_branch_index_from, if_pos hf]
      simp
    | succ i' =>
      have hf : f.id ≠ c := hmin 0 (by simp) (by omega)
      rw [current_branch_index_from, if_neg hf]
      rw [ih (k + 1) i' (by simpa using hi) (by simpa using hcur)
        (fun j hj hji =>
          by simpa using hmin (j + 1) (by simpa using hj) (by omega))]
      congr 1
      omega

/-- C10: `_current_branch_index(branch_frames)` returns the index of the
first frame in `branch_frames` whose id equals the id of the frame at the
current cursor position, and returns -1 (not an error) when no id matches. -/
theorem current_branch_index_spec (s : State) (frames : List TraceFrame)
    (t : TraceTuple)
    (h : s.trace_tuples[s.current_trace_frame_index]? = some t) :
    ((∀ f ∈ frames, f.id ≠ t.trace_frame.id) →
      current_branch_index s frames = -1) ∧
    (∀ i (hi : i < frames.length),
      (frames.get ⟨i, hi⟩).id = t.trace_frame.id →
      (∀ j (hj : j < frames.length), j < i →
        (frames.get ⟨j, hj⟩).id ≠ t.trace_frame.id) →
      current_branch_index s frames = (i : Int)) := by
  unfold current_branch_index
  rw [h]
  constructor
  · intro hne
    exact current_branch_index_from_none t.trace_frame.id frames 0 hne
  · intro i hi hcur hmin
    simpa using
      current_branch_index_from_first t.trace_frame.id frames 0 i hi hcur hmin

/-- C2: on the six-frame branched store (two POSTCONDITION entry frames
sharing one source leaf, two PRECONDITION entry frames sharing one sink leaf,
two further PRECONDITION frames), the rendered trace shows `"+ 2"` on the
root row's upstream and downstream neighbors, and enumerating branches at
each side of the root returns exactly 2 frames, ascending by frame id. -/
theorem branched_trace_spec :
    trace sBranched =
      (["     [branches] [callable] [port] [location]",
        "     + 2        leaf       source file.py:0|0|0",
        " -->            call1      root   file.py:2|2|2",
        "     + 2        call2      param2 file.py:2|2|2",
        "     + 2        leaf       sink   file.py:4|4|4"], []) ∧
    sBranched.current_trace_frame_index = 1 ∧
    (get_trace_frame_branches dbBranched (prev_cursor_location sBranched)).map
        (fun f => f.id) = [1, 2] ∧
    (get_trace_frame_branches dbBranched (next_cursor_location sBranched)).map
        (fun f => f.id) = [3, 4] := by
  refine ⟨by decide, by decide, by decide, by decide⟩

/-- C5: on the store whose PRECONDITION chain has no stored continuation
(expected caller "call2", port "param0"), the trace command renders the
inline line `"Missing trace frame: call2:param0"` as the last output line,
stops the walk there, and returns with an empty error channel; the state
remains usable (the cursor can still move). -/
theorem trace_missing_frame_spec :
    trace sMissing =
      (["     [branches] [callable] [port] [location]",
        "                leaf       source file.py:1|1|1",
        " -->            call1      root   file.py:1|1|1",
        "                call2      param0 file.py:1|1|1",
        "Missing trace frame: call2:param0"], []) ∧
    (next_cursor_location sMissing).current_trace_frame_index = 2 := by
  refine ⟨by decide, by decide⟩

/-- C1 (corrected): on the `testBranchPrefixLengthChanges` store, switching
to the longer source branch at cursor index 0 moves the cursor to index 1 —
the numeric cursor position is not preserved, though the cursor does point at
the newly chosen frame (id 2); the rendered tables are the ones the test
pins. -/
theorem branch_prefix_counterexample :
    (prev_cursor_location sPrefixLen).current_trace_frame_index = 0 ∧
    1 < (get_trace_frame_branches dbPrefixLen (prev_cursor_location sPrefixLen)).length ∧
    (branch dbPrefixLen (prev_cursor_location sPrefixLen) 1).1.current_trace_frame_index = 1 ∧
    (branch dbPrefixLen (prev_cursor_location sPrefixLen) 1).2 = [] ∧
    ((branch dbPrefixLen (prev_cursor_location sPrefixLen) 1).1.trace_tuples[1]?).map
        (fun t => t.trace_frame.id) = some 2 ∧
    trace_output (prev_cursor_location sPrefixLen) =
      ["     [branches] [callable] [port] [location]",
        " --> + 2        leaf       source file.py:1|1|1",
        "                call1      root   file.py:1|2|2",
        "                leaf       sink   file.py:1|2|2"] ∧
    trace_output (branch dbPrefixLen (prev_cursor_location sPrefixLen) 1).1 =
      ["     [branches] [callable] [port] [location]",
        "                leaf       source file.py:1|1|1",
        " --> + 2        prev_call  result file.py:1|1|1",
        "                call1      root   file.py:1|2|2",
        "                leaf       sink   file.py:1|2|2"] := by
  refine ⟨by decide, by decide, by decide, by decide, by decide, by decide, by decide⟩

/-- Indexing an appended list at the left part's length reaches the right
part's head. -/
theorem getElem_append_left_length {α : Type} (l1 l2 : List α) :
    (l1 ++ l2)[l1.length]? = l2[0]? := by
  induction l1 with
  | nil => simp
  | cons a l ih => simpa using ih

/-- Indexing an appended list at an index equal to the left part's length. -/
theorem getElem_append_of_length {α : Type} (l1 l2 : List α) (n : Nat)
    (h : l1.length = n) : (l1 ++ l2)[n]? = l2[0]? :=
  h ▸ getElem_append_left_length l1 l2

/-- C3: selecting an issue sets the cursor to the boundary between the
upstream (source-side) and downstream (sink-side) chains — the cursor index
equals the length of the upstream chain, the assembled sequence is the
upstream chain followed by the root row and the downstream chain, and the
tuple at the cursor is the root row whenever the downstream chain is
nonempty. -/
theorem set_issue_cursor_boundary (db : DB) (s : State) (id : Nat)
    (inst : IssueInstance)
    (h : db.issue_instances.find? (fun i => i.id == id) = some inst) :
    (set_issue db s id).1.current_trace_frame_index =
      (upstream_chain db (get_leaves db inst.id SharedTextKind.source)
          (get_leaves db inst.id SharedTextKind.sink) inst.id).length ∧
    (set_issue db s id).1.trace_tuples =
      upstream_chain db (get_leaves db inst.id SharedTextKind.source)
          (get_leaves db inst.id SharedTextKind.sink) inst.id ++
        root_tuples (downstream_chain db (get_leaves db inst.id SharedTextKind.source)
          (get_leaves db inst.id SharedTextKind.sink) inst.id) ++
        downstream_chain db (get_leaves db inst.id SharedTextKind.source)
          (get_leaves db inst.id SharedTextKind.sink) inst.id ∧
    (∀ t rest,
      downstream_chain db (get_leaves db inst.id SharedTextKind.source)
          (get_leaves db inst.id SharedTextKind.sink) inst.id = t :: rest →
      (set_issue db s id).1.trace_tuples[(set_issue db s
          id).1.current_trace_frame_index]? =
        some ⟨t.trace_frame, 1, false, true⟩) := by
  have hset : (set_issue db s id).1 =
      { s with
          current_issue_id := some id
          sources := get_leaves db inst.id SharedTextKind.source
          sinks := get_leaves db inst.id SharedTextKind.sink
          trace_tuples := (generate_trace db inst.id).1
          current_trace_frame_index := (generate_trace db inst.id).2 } := by
    unfold set_issue
    rw [h]
  rw [hset]
  unfold generate_trace
  refine ⟨rfl, rfl, ?_⟩
  intro t rest hd
  show (upstream_chain db (get_leaves db inst.id SharedTextKind.source)
        (get_leaves db inst.id SharedTextKind.sink) inst.id ++
      root_tuples (downstream_chain db (get_leaves db inst.id SharedTextKind.source)
        (get_leaves db inst.id SharedTextKind.sink) inst.id) ++
      downstream_chain db (get_leaves db inst.id SharedTextKind.source)
        (get_leaves db inst.id SharedTextKind.sink) inst.id)[
    (upstream_chain db (get_leaves db inst.id SharedTextKind.source)
        (get_leaves db inst.id SharedTextKind.sink) inst.id).length]? =
    some ⟨t.trace_frame, 1, false, true⟩
  rw [List.append_assoc, getElem_append_left_length, hd]
  rfl

/-- C1 (amended): after a successful `branch(choice)`, the tuple at the new
cursor position is the newly chosen sibling frame carrying the candidate
count as its branch count; the numeric cursor index is preserved when the
switch happens on the downstream (sink) side, while on the upstream (source)
side it becomes the length of the regenerated upstream navigation minus one,
which can differ from the pre-switch index. -/
theorem branch_cursor_spec (db : DB) (s : State) (choice : Nat)
    (h1 : choice < (get_trace_frame_branches db s).length)
    (h2 : s.current_trace_frame_index ≤ s.trace_tuples.length) :
    (is_before_root s = false →
      (branch db s choice).1.current_trace_frame_index =
        s.current_trace_frame_index) ∧
    (is_before_root s = true →
      (branch db s choice).1.current_trace_frame_index =
        (navigate db s.sources s.sinks (get_trace_frame_branches db s)
            choice).length - 1) ∧
    (∃ f, (get_trace_frame_branches db s)[choice]? = some f ∧
      (branch db s choice).1.trace_tuples[(branch db s
          choice).1.current_trace_frame_index]? =
        some ⟨f, (get_trace_frame_branches db s).length, false, false⟩) := by
  have hnav : navigate db s.sources s.sinks (get_trace_frame_branches db s) choice =
      ⟨(get_trace_frame_branches db s).get ⟨choice, h1⟩,
          (get_trace_frame_branches db s).length, false, false⟩ ::
        navigate_steps db s.sources s.sinks
          ((get_trace_frame_branches db s).get ⟨choice, h1⟩)
          (db.trace_frames.length + 1) := by
    unfold navigate
    rw [List.getElem?_eq_getElem h1]
    rfl
  cases hb : is_before_root s with
  | false =>
    have hbr : branch db s choice =
        ({ s with
            trace_tuples := s.trace_tuples.take s.current_trace_frame_index ++
              navigate db s.sources s.sinks (get_trace_frame_branches db s) choice
            current_trace_frame_index := s.current_trace_frame_index }, []) := by
      unfold branch
      simp [h1, hb]
    refine ⟨fun _ => by rw [hbr], fun ht => absurd ht (by simp), ?_⟩
    refine ⟨(get_trace_frame_branches db s).get ⟨choice, h1⟩,
      List.getElem?_eq_getElem h1, ?_⟩
    rw [hbr]
    show (s.trace_tuples.take s.current_trace_frame_index ++
        navigate db s.sources s.sinks (get_trace_frame_branches db s)
          choice)[s.current_trace_frame_index]? = _
    have hlen : (s.trace_tuples.take s.current_trace_frame_index).length =
        s.current_trace_frame_index := by
      simp [List.length_take]
      omega
    rw [getElem_append_of_length _ _ _ hlen, hnav]
    simp
  | true =>
    have hbr : branch db s choice =
        ({ s with
            trace_tuples :=
              (navigate db s.sources s.sinks (get_trace_frame_branches db s)
                  choice).reverse ++
                s.trace_tuples.drop (s.current_trace_frame_index + 1)
            current_trace_frame_index :=
              (navigate db s.sources s.sinks (get_trace_frame_branches db s)
                  choice).length - 1 }, []) := by
      unfold branch
      simp [h1, hb]
    refine ⟨fun hf => absurd hf (by simp), fun _ => by rw [hbr], ?_⟩
    refine ⟨(get_trace_frame_branches db s).get ⟨choice, h1⟩,
      List.getElem?_eq_getElem h1, ?_⟩
    rw [hbr]
    show ((navigate db s.sources s.sinks (get_trace_frame_branches db s)
          choice).reverse ++
        s.trace_tuples.drop (s.current_trace_frame_index + 1))[
      (navigate db s.sources s.sinks (get_trace_frame_branches db s)
          choice).length - 1]? = _
    rw [hnav, List.reverse_cons, List.append_assoc]
    simp only [List.length_cons, Nat.succ_sub_one]
    rw [show (navigate_steps db s.sources s.sinks
          ((get_trace_frame_branches db s).get ⟨choice, h1⟩)
          (db.trace_frames.length + 1)).length =
        (navigate_steps db s.sources s.sinks
          ((get_trace_frame_branches db s).get ⟨choice, h1⟩)
          (db.trace_frames.length + 1)).reverse.length from
      (List.length_reverse _).symm]
    rw [getElem_append_left_length]
    simp

/-- Witness for C1's amended claim: a downstream-side switch on the branched
store (cursor on the sink leaf, choosing sibling frame id 6). -/
theorem branch_cursor_spec_witness :
    1 < (get_trace_frame_branches dbBranched sBranchedSink).length ∧
    sBranchedSink.current_trace_frame_index ≤ sBranchedSink.trace_tuples.length ∧
    ((is_before_root sBranchedSink = false →
      (branch dbBranched sBranchedSink 1).1.current_trace_frame_index =
        sBranchedSink.current_trace_frame_index) ∧
    (is_before_root sBranchedSink = true →
      (branch dbBranched sBranchedSink 1).1.current_trace_frame_index =
        (navigate dbBranched sBranchedSink.sources sBranchedSink.sinks
            (get_trace_frame_branches dbBranched sBranchedSink) 1).length - 1) ∧
    (∃ f, (get_trace_frame_branches dbBranched sBranchedSink)[1]? = some f ∧
      (branch dbBranched sBranchedSink 1).1.trace_tuples[(branch dbBranched
          sBranchedSink 1).1.current_trace_frame_index]? =
        some ⟨f, (get_trace_frame_branches dbBranched sBranchedSink).length,
          false, false⟩)) :=
  ⟨by decide, by decide, branch_cursor_spec dbBranched sBranchedSink 1 (by decide)
    (by decide)⟩

/-- Witness for C3 at the branched store: the upstream chain has length 1 and
the cursor lands on the root row at index 1. -/
theorem set_issue_cursor_boundary_witness :
    dbBranched.issue_instances.find? (fun i => i.id == 1) =
      some ⟨1, 1, 1, "module.py", SourceLocation.make 1 2 (some 3)⟩ ∧
    ((set_issue dbBranched (setup dbBranched initial_state).1
        1).1.current_trace_frame_index =
      (upstream_chain dbBranched
          (get_leaves dbBranched 1 SharedTextKind.source)
          (get_leaves dbBranched 1 SharedTextKind.sink) 1).length ∧
    (set_issue dbBranched (setup dbBranched initial_state).1 1).1.trace_tuples =
      upstream_chain dbBranched (get_leaves dbBranched 1 SharedTextKind.source)
          (get_leaves dbBranched 1 SharedTextKind.sink) 1 ++
        root_tuples (downstream_chain dbBranched
          (get_leaves dbBranched 1 SharedTextKind.source)
          (get_leaves dbBranched 1 SharedTextKind.sink) 1) ++
        downstream_chain dbBranched (get_leaves dbBranched 1 SharedTextKind.source)
          (get_leaves dbBranched 1 SharedTextKind.sink) 1 ∧
    (∀ t rest,
      downstream_chain dbBranched (get_leaves dbBranched 1 SharedTextKind.source)
          (get_leaves dbBranched 1 SharedTextKind.sink) 1 = t :: rest →
      (set_issue dbBranched (setup dbBranched initial_state).1
          1).1.trace_tuples[(set_issue dbBranched (setup dbBranched initial_state).1
          1).1.current_trace_frame_index]? =
        some ⟨t.trace_frame, 1, false, true⟩)) :=
  ⟨by decide,
    set_issue_cursor_boundary dbBranched (setup dbBranched initial_state).1 1
      ⟨1, 1, 1, "module.py", SourceLocation.make 1 2 (some 3)⟩ (by decide)⟩

/-- Witness for C10 at the `testCurrentBranchIndex` fixture: candidate ids
1,2,3 and a current frame with id 2 give index 1. -/
theorem current_branch_index_spec_witness :
    sIndexTest.trace_tuples[sIndexTest.current_trace_frame_index]? =
      some ⟨dummy_frame 2, 1, false, false⟩ ∧
    current_branch_index sIndexTest framesIndexTest = (1 : Int) :=
  ⟨by decide,
    (current_branch_index_spec sIndexTest framesIndexTest ⟨dummy_frame 2, 1, false, false⟩
        (by decide)).2
      1 (by decide) (by decide) (by decide)⟩

end Sapp
